import Mathlib

/-!
Verification of the sales-analysis core (data_processing / date_table / measures)
against its natural-language specification.

The Python modules are shallowly embedded: pandas DataFrames become association
lists of named columns of cells, pandas cells become the inductive `Val`
(`Val.na` is NaN/NaT), numeric cells are rationals, timestamps are carried at
day granularity, and operations that can raise (missing-column `KeyError`,
failing `assert`) return `Except String`.
-/

deriving instance DecidableEq for Except

namespace SalesCore

/-- A pandas cell: missing (`na`), a number, a string, or a timestamp carried
as its calendar components (year, month, day). -/
inductive Val where
  | na : Val
  | num : ℚ → Val
  | str : String → Val
  | date : Int → Int → Int → Val
deriving DecidableEq, Repr

/-- A DataFrame for `measures.py`: an ordered association list of named
columns. -/
structure DF where
  cols : List (String × List Val)
deriving DecidableEq, Repr

/-- Column-presence test, `c in df.columns`. -/
def DF.hasCol (df : DF) (c : String) : Bool :=
  df.cols.any (fun p => p.1 == c)

/-- Column selection `df[c]`; total, returning `[]` for an absent column
(callers that can observe the error path go through `requireCol`). -/
def DF.getCol (df : DF) (c : String) : List Val :=
  ((df.cols.find? (fun p => p.1 == c)).map Prod.snd).getD []

/-- Column assignment `df[c] = v`: replace in place when the name exists,
append otherwise. -/
def DF.setCol (df : DF) (c : String) (v : List Val) : DF :=
  if df.hasCol c then ⟨df.cols.map (fun p => if p.1 == c then (c, v) else p)⟩
  else ⟨df.cols ++ [(c, v)]⟩

/-- Column selection that raises `KeyError` on an absent column, as pandas
`df[c]` does. -/
def requireCol (df : DF) (c : String) : Except String (List Val) :=
  if df.hasCol c then .ok (df.getCol c) else .error ("KeyError: " ++ c)

/-- The cell read `df[c][i]`, with `na` out of range. -/
def DF.cell (df : DF) (c : String) (i : Nat) : Val :=
  (df.getCol c).getD i Val.na

/-- The column names of a DataFrame, in order. -/
def DF.colNames (df : DF) : List String := df.cols.map Prod.fst

/-- Element-wise product of two series; any non-numeric operand yields NaN. -/
def Val.mulV : Val → Val → Val
  | .num a, .num b => .num (a * b)
  | _, _ => .na

/-- Element-wise difference of two series; any non-numeric operand yields NaN. -/
def Val.subV : Val → Val → Val
  | .num a, .num b => .num (a - b)
  | _, _ => .na

/-- Series multiplication `a * b`. -/
def seriesMul (a b : List Val) : List Val := List.zipWith Val.mulV a b

/-- Series subtraction `a - b`. -/
def seriesSub (a b : List Val) : List Val := List.zipWith Val.subV a b

/-! ## measures.prepare_sales_columns

The three `if 'X' not in df.columns` blocks of `prepare_sales_columns`, one
definition per block; each bare column access inside a block is a
`requireCol` (pandas raises `KeyError` when the prerequisite is absent). -/

/-- Block 1: ensure `Sales = Order Quantity * Unit Selling Price`. -/
def ensureSales (df : DF) : Except String DF :=
  if df.hasCol "Sales" then .ok df else do
    let oq ← requireCol df "Order Quantity"
    let up ← requireCol df "Unit Selling Price"
    .ok (df.setCol "Sales" (seriesMul oq up))

/-- Block 2: ensure `Total_Cost = Order Quantity * Unit Cost`. -/
def ensureTotalCost (df : DF) : Except String DF :=
  if df.hasCol "Total_Cost" then .ok df else do
    let oq ← requireCol df "Order Quantity"
    let uc ← requireCol df "Unit Cost"
    .ok (df.setCol "Total_Cost" (seriesMul oq uc))

/-- Block 3: ensure `Profit = Sales - Total_Cost`. -/
def ensureProfit (df : DF) : Except String DF :=
  if df.hasCol "Profit" then .ok df else do
    let s ← requireCol df "Sales"
    let tc ← requireCol df "Total_Cost"
    .ok (df.setCol "Profit" (seriesSub s tc))

/-- `measures.prepare_sales_columns`: runs the three blocks in order. -/
def prepare_sales_columns (df : DF) : Except String DF := do
  let d1 ← ensureSales df
  let d2 ← ensureTotalCost d1
  ensureProfit d2

/-! ## measures.calculate_yoy -/

/-- `.dt.year` of a cell (only date cells carry a year). -/
def valYear : Val → Int
  | .date y _ _ => y
  | _ => 0

/-- Numeric value of a cell as used by `.sum()` (NaN contributes 0, matching
pandas' skip-NaN summation). -/
def valNum : Val → ℚ
  | .num q => q
  | _ => 0

/-- `df[date_column].dt.year` as a list. -/
def colYears (df : DF) (dc : String) : List Int :=
  (df.getCol dc).map valYear

/-- `Series.max()` over a list of years (0 on an empty series, whose pandas
value NaN never feeds a year comparison that matters here). -/
def listMax : List Int → Int
  | [] => 0
  | x :: xs => xs.foldl max x

/-- `current_year if current_year is not None else df[dc].dt.year.max()`. -/
def resolveYear (df : DF) (dc : String) : Option Int → Int
  | some y => y
  | none => listMax (colYears df dc)

/-- The value cells of `df[df[dc].dt.year == y][vc]`. -/
def filterByYear (df : DF) (dc vc : String) (y : Int) : List Val :=
  (List.zip (df.getCol dc) (df.getCol vc)).filterMap
    (fun p => if valYear p.1 = y then some p.2 else none)

/-- `df[df[dc].dt.year == y][vc].sum()`. -/
def yearSum (df : DF) (dc vc : String) (y : Int) : ℚ :=
  ((filterByYear df dc vc y).map valNum).sum

/-- `measures.calculate_yoy`: returns (cy_total, py_total, var, var_pct),
with the zero-guard `var / cy_total * 100 if cy_total != 0 else 0.0`. This is
the value computed on a frame containing the accessed columns; the
`KeyError` its bare `df[...]` accesses raise on an absent column is carried
by `checked_yoy`, through which `calculate_all_measures` calls it. -/
def calculate_yoy (df : DF) (dc vc : String) (currentYear : Option Int) :
    ℚ × ℚ × ℚ × ℚ :=
  let cy := resolveYear df dc currentYear
  let py := cy - 1
  let cy_total := yearSum df dc vc cy
  let py_total := yearSum df dc vc py
  let v := cy_total - py_total
  let v_pct := if cy_total ≠ 0 then v / cy_total * 100 else 0
  (cy_total, py_total, v, v_pct)

/-- `measures.calculate_profit_margin`. -/
def calculate_profit_margin (total_profit total_sales : ℚ) : ℚ :=
  if total_sales ≠ 0 then total_profit / total_sales * 100 else 0

/-- Truncation toward zero, Python's `int()` on a float. -/
def ratTrunc (q : ℚ) : Int :=
  if 0 ≤ q then q.floor else q.ceil

/-- `measures.SalesMeasures`, the scalar KPI bundle. -/
structure SalesMeasures where
  total_sales : ℚ := 0
  total_sales_py : ℚ := 0
  total_sales_py_var : ℚ := 0
  total_sales_py_var_pct : ℚ := 0
  total_profit : ℚ := 0
  total_profit_py : ℚ := 0
  total_profit_py_var : ℚ := 0
  total_profit_py_var_pct : ℚ := 0
  profit_margin_pct : ℚ := 0
  total_cost : ℚ := 0
  total_order_quantity : Int := 0
  total_order_quantity_py : Int := 0
  total_order_quantity_py_var : Int := 0
  total_order_quantity_py_var_pct : ℚ := 0
deriving DecidableEq, Repr

/-- The column accesses of one `calculate_yoy` call as `calculate_all_measures`
makes it (measures.py:48-52): `df[date_column]` and the value-column
selection raise `KeyError` when the column is absent; when both columns
exist the result is the pure `calculate_yoy` value. -/
def checked_yoy (df : DF) (dc vc : String) (currentYear : Option Int) :
    Except String (ℚ × ℚ × ℚ × ℚ) := do
  let _ ← requireCol df dc
  let _ ← requireCol df vc
  .ok (calculate_yoy df dc vc currentYear)

/-- `measures.calculate_all_measures`: prepares derived columns (which can
raise) then fills the bundle from three `calculate_yoy` calls, the margin,
and the unfiltered `Total_Cost` sum, in source order. Every column is read
through `requireCol`: even after a successful prepare step, a missing date
column or a missing `Order Quantity` column raises a `KeyError` inside the
`calculate_yoy` calls (the derived `Sales`/`Profit`/`Total_Cost` columns are
always present at these reads). -/
def calculate_all_measures (df0 : DF) (dc : String) (currentYear : Option Int) :
    Except String SalesMeasures := do
  let df ← prepare_sales_columns df0
  let s ← checked_yoy df dc "Sales" currentYear
  let p ← checked_yoy df dc "Profit" currentYear
  let tc ← requireCol df "Total_Cost"
  let q ← checked_yoy df dc "Order Quantity" currentYear
  .ok { total_sales := s.1, total_sales_py := s.2.1,
        total_sales_py_var := s.2.2.1, total_sales_py_var_pct := s.2.2.2,
        total_profit := p.1, total_profit_py := p.2.1,
        total_profit_py_var := p.2.2.1, total_profit_py_var_pct := p.2.2.2,
        profit_margin_pct := calculate_profit_margin p.1 s.1,
        total_cost := (tc.map valNum).sum,
        total_order_quantity := ratTrunc q.1,
        total_order_quantity_py := ratTrunc q.2.1,
        total_order_quantity_py_var := ratTrunc q.2.2.1,
        total_order_quantity_py_var_pct := q.2.2.2 }

/-! ## measures.calculate_measures_by_dimension -/

/-- The dimension cells of the rows of year `y`
(`df[df[dc].dt.year == y][dim]`). -/
def yearDimVals (df : DF) (dc dim : String) (y : Int) : List Val :=
  (List.zip (df.getCol dc) (df.getCol dim)).filterMap
    (fun p => if valYear p.1 = y then some p.2 else none)

/-- The group keys of `df[year == y].groupby(dim)`: the distinct non-NaN
dimension cells of that year (pandas drops NaN keys; it also sorts keys,
an ordering none of the verified properties depend on). -/
def groupKeys (df : DF) (dc dim : String) (y : Int) : List Val :=
  ((yearDimVals df dc dim y).filter (fun v => v != Val.na)).dedup

/-- The per-group sum `df[year == y].groupby(dim)[vc].sum()` at key `k`
(pandas summation skips NaN, hence `valNum`). -/
def groupSum (df : DF) (dc dim vc : String) (y : Int) (k : Val) : ℚ :=
  ((List.zip (df.getCol dc) (List.zip (df.getCol dim) (df.getCol vc))).filterMap
    (fun p => if valYear p.1 = y ∧ p.2.1 = k then some (valNum p.2.2) else none)).sum

/-- One merged-then-filled column of `pd.merge(cy, py, on=dim,
how='outer').fillna(0)`: over the outer-join key list, a key present on this
side gets its group sum, an absent key gets NaN which `fillna(0)` then turns
into 0 (the source computes merge and fill in the single expression of line
117 of measures.py, embedded here as the two composed maps). -/
def mergeFillCol (keys side : List Val) (sums : Val → ℚ) : List Val :=
  (keys.map (fun k => if side.contains k then Val.num (sums k) else Val.na)).map
    (fun v => if v = Val.na then Val.num 0 else v)

/-- The guarded ratio column `np.where(den != 0, numer / den * 100, 0)`. -/
def whereRatio (den numer : List Val) : List Val :=
  List.zipWith
    (fun a b => if valNum a ≠ 0 then Val.num (valNum b / valNum a * 100)
                else Val.num 0) den numer

/-- The key column of the outer join `pd.merge(cy, py, on=dim, how='outer')`:
the current-year group keys joined with the prior-year-only group keys. -/
def aggKeys (df : DF) (dc dim : String) (cy : Int) : List Val :=
  let cyKeys := groupKeys df dc dim cy
  cyKeys ++ (groupKeys df dc dim (cy - 1)).filter (fun k => !(cyKeys.contains k))

/-- The aggregate frame built by `calculate_measures_by_dimension` after
`prepare_sales_columns` succeeded and the current year `cy` is resolved:
group each year by the dimension, outer-join the two grouped frames on the
dimension, fill missing cells with 0, and append `Sales_Var`,
`Sales_Var_Pct` and `Profit_Margin_Pct`. -/
def aggDF (df : DF) (dim dc : String) (cy : Int) : DF :=
  let py := cy - 1
  let cyKeys := groupKeys df dc dim cy
  let pyKeys := groupKeys df dc dim py
  let keys := aggKeys df dc dim cy
  let cyCol := fun vc => mergeFillCol keys cyKeys (groupSum df dc dim vc cy)
  let pyCol := fun vc => mergeFillCol keys pyKeys (groupSum df dc dim vc py)
  let scy := cyCol "Sales"
  let spy := pyCol "Sales"
  let svar := seriesSub scy spy
  ⟨[(dim, keys),
    ("Sales_CY", scy), ("Profit_CY", cyCol "Profit"),
    ("Qty_CY", cyCol "Order Quantity"), ("Cost_CY", cyCol "Total_Cost"),
    ("Sales_PY", spy), ("Profit_PY", pyCol "Profit"),
    ("Qty_PY", pyCol "Order Quantity"),
    ("Sales_Var", svar),
    ("Sales_Var_Pct", whereRatio scy svar),
    ("Profit_Margin_Pct", whereRatio scy (cyCol "Profit"))]⟩

/-- `measures.calculate_measures_by_dimension`: prepare derived columns
(which can raise), resolve the current year, then build the aggregate. -/
def calculate_measures_by_dimension (df0 : DF) (dim dc : String)
    (currentYear : Option Int) : Except String DF := do
  let df ← prepare_sales_columns df0
  .ok (aggDF df dim dc (resolveYear df dc currentYear))

/-- Column names that the aggregate's own output uses; a grouping dimension
carrying one of these names would collide with the renamed aggregation
columns (pandas produces duplicate labels there), so the per-dimension
theorems assume the dimension is not one of them. -/
def reservedName (s : String) : Bool :=
  s ∈ ["Sales_CY", "Profit_CY", "Qty_CY", "Cost_CY",
       "Sales_PY", "Profit_PY", "Qty_PY", "Cost_PY",
       "Sales_Var", "Sales_Var_Pct", "Profit_Margin_Pct"]

/-! ## date_table.create_date_table

Timestamps are embedded as day numbers relative to 1970-01-01 (the unit of
`pd.date_range(freq='D')`); `civilFromDays` / `daysFromCivil` are the
standard proleptic-Gregorian conversions, matching the `.dt.year/.month/.day`
accessors. Python's `%` and `//` with a positive right operand coincide with
`Int.emod` / `Int.ediv` (written `%` and `/` below) on the non-negative
numerators involved; the conversions use `Int.fdiv`, Python floor division. -/

/-- Day number to (year, month, day) in the proleptic Gregorian calendar. -/
def civilFromDays (z0 : Int) : Int × Int × Int :=
  let z := z0 + 719468
  let era := z.fdiv 146097
  let doe := z - era * 146097
  let yoe := (doe - doe.fdiv 1460 + doe.fdiv 36524 - doe.fdiv 146096).fdiv 365
  let y := yoe + era * 400
  let doy := doe - (365 * yoe + yoe.fdiv 4 - yoe.fdiv 100)
  let mp := (5 * doy + 2).fdiv 153
  let d := doy - (153 * mp + 2).fdiv 5 + 1
  let m := mp + (if mp < 10 then 3 else -9)
  (if m ≤ 2 then y + 1 else y, m, d)

/-- (year, month, day) to day number, inverse of `civilFromDays`. -/
def daysFromCivil (y0 m d : Int) : Int :=
  let y := if m ≤ 2 then y0 - 1 else y0
  let era := y.fdiv 400
  let yoe := y - era * 400
  let doy := (153 * (m + (if 2 < m then -3 else 9)) + 2).fdiv 5 + d - 1
  let doe := yoe * 365 + yoe.fdiv 4 - yoe.fdiv 100 + doy
  era * 146097 + doe - 719468

/-- `pd.date_range(start, end, freq='D')`: the day numbers from `s` to `e`
inclusive, empty when `e < s`. -/
def dateRange (s e : Int) : List Int :=
  (List.range (e - s + 1).toNat).map (fun (i : Nat) => s + (i : Int))

/-- One row of the date table. The source also carries string-formatted and
period-boundary presentation columns (`Month_Name`, `Quarter_Name`,
`Is_Month_Start`, `Week_No`, ...) that are pure renderings of the components
below; they are not part of any verified property and are omitted. -/
structure CalRow where
  Date : Int
  Year : Int
  Quarter : Int
  Month : Int
  Day : Int
  Day_Of_Week : Int
  Day_Of_Year : Int
  Is_Weekend : Bool
  Date_PY : Int
  Fiscal_Year : Int
  Fiscal_Quarter : Int
deriving DecidableEq, Repr

/-- Builds the row of day `d`, the per-row content of the column assignments
of `create_date_table` (fiscal columns per lines 61-66). -/
def mkCalRow (fsm : Int) (d : Int) : CalRow :=
  let c := civilFromDays d
  let y := c.1
  let mo := c.2.1
  let da := c.2.2
  let dow := (d + 3) % 7 + 1
  { Date := d
    Year := y
    Quarter := (mo - 1) / 3 + 1
    Month := mo
    Day := da
    Day_Of_Week := dow
    Day_Of_Year := d - daysFromCivil y 1 1 + 1
    Is_Weekend := dow == 6 || dow == 7
    Date_PY := if mo = 2 ∧ da = 29 then daysFromCivil (y - 1) 2 28
               else daysFromCivil (y - 1) mo da
    Fiscal_Year := if mo ≥ fsm then y else y - 1
    Fiscal_Quarter := (mo - fsm) % 12 / 3 + 1 }

/-- The date table. -/
structure CalTable where
  rows : List CalRow
deriving DecidableEq, Repr

/-- `date_table.create_date_table`: builds one row per day of the range and
then runs the source's `assert` statements (date uniqueness; the
no-null-date assert is vacuous at day granularity since every row carries a
total day number). An `assert` failure is the only error path — the source
has no range or fiscal-month validation. -/
def create_date_table (s e fsm : Int) : Except String CalTable :=
  let t : CalTable := ⟨(dateRange s e).map (mkCalRow fsm)⟩
  if (t.rows.map (fun r => r.Date)).Nodup then .ok t
  else .error "AssertionError: dates must be unique"

/-! ## data_processing.clean_data

The cleaner's frame carries a dtype per column (`select_dtypes` dispatches on
it) and row-major data; a cell read past a row's end is NaN. All cleaning
steps after deduplication are cell-wise once each numeric column's median is
fixed, so they are embedded as one cell transformer. -/

/-- A pandas column dtype as `select_dtypes` sees it: `np.number`, `object`
(text) or `datetime64`. -/
inductive Dtype where
  | number : Dtype
  | text : Dtype
  | datetime : Dtype
deriving DecidableEq, Repr

/-- The cleaner's DataFrame: a schema (name, dtype) and row-major cells. -/
structure CDF where
  schema : List (String × Dtype)
  rows : List (List Val)
deriving DecidableEq, Repr

/-- Keeps the first occurrence of each element, dropping later duplicates;
`seen` accumulates the elements already emitted. -/
def firstDedupAux {α : Type _} [DecidableEq α] : List α → List α → List α
  | _, [] => []
  | seen, x :: xs =>
      if x ∈ seen then firstDedupAux seen xs
      else x :: firstDedupAux (x :: seen) xs

/-- `df.drop_duplicates()` on the row list (keep='first'; pandas compares
NaN equal to NaN here, as does `Val.na`). -/
def firstDedup {α : Type _} [DecidableEq α] (l : List α) : List α :=
  firstDedupAux [] l

/-- Whether `pat` is an initial segment of the second list. -/
def startsWithL : List Char → List Char → Bool
  | [], _ => true
  | _ :: _, [] => false
  | p :: ps, c :: cs => p == c && startsWithL ps cs

/-- Whether `pat` occurs as a contiguous sublist. -/
def hasSubL (pat : List Char) : List Char → Bool
  | [] => pat.isEmpty
  | c :: cs => startsWithL pat (c :: cs) || hasSubL pat cs

/-- `'date' in col.lower()`, the date-column detection of the source. -/
def isDateName (s : String) : Bool :=
  hasSubL ['d', 'a', 't', 'e'] (s.data.map Char.toLower)

/-- Insertion into a sorted rational list. -/
def insertSorted (x : ℚ) : List ℚ → List ℚ
  | [] => [x]
  | y :: ys => if x ≤ y then x :: y :: ys else y :: insertSorted x ys

/-- Insertion sort of a rational list. -/
def sortQ (l : List ℚ) : List ℚ := l.foldr insertSorted []

/-- `Series.median()` over the present values: middle element of the sorted
list, or the mean of the two middle elements; `none` (pandas NaN) when every
value is missing. -/
def medianQ (l : List ℚ) : Option ℚ :=
  let s := sortQ l
  let n := s.length
  if n = 0 then none
  else if n % 2 = 1 then some (s.getD (n / 2) 0)
  else some ((s.getD (n / 2 - 1) 0 + s.getD (n / 2) 0) / 2)

/-- The present numeric values of a column. -/
def numsOf (vals : List Val) : List ℚ :=
  vals.filterMap (fun v => match v with | Val.num q => some q | _ => none)

/-- Column `j` of a row-major cell matrix. -/
def colOf (rows : List (List Val)) (j : Nat) : List Val :=
  rows.map (fun r => r.getD j Val.na)

/-- The magnitude columns taken to absolute value by the source. -/
def magnitudeCols : List String :=
  ["Order Quantity", "Unit Selling Price", "Unit Cost"]

/-- `pd.to_datetime(cell, errors='coerce')` at day granularity: timestamps
and NaN pass through, any other cell coerces to NaT (the embedding carries
no sub-day epoch numbers or unparsed date strings). -/
def toDatetimeCell : Val → Val
  | .date y m d => .date y m d
  | _ => .na

/-- `fillna` step for one cell: a missing numeric cell becomes the column
median when one exists (an all-missing column has median NaN, so `fillna`
leaves NaN in place); a missing text cell becomes `"Unknown"`; datetime
columns are not filled. -/
def fillCell (dt : Dtype) (m : Option ℚ) (v : Val) : Val :=
  match dt, v with
  | .number, .na => (match m with | some q => Val.num q | none => Val.na)
  | .text, .na => Val.str "Unknown"
  | _, _ => v

/-- `Series.abs()` on one cell. -/
def absCell : Val → Val
  | .num q => .num |q|
  | v => v

/-- The cleaning steps 2-5 applied to one cell of column `name` with dtype
`dt` and column median `m`, in source order: impute, convert date-named
columns, then absolute value for magnitude columns. -/
def cleanCell (name : String) (dt : Dtype) (m : Option ℚ) (v : Val) : Val :=
  let v1 := fillCell dt m v
  let v2 := if isDateName name then toDatetimeCell v1 else v1
  if name ∈ magnitudeCols then absCell v2 else v2

/-- The deduplication stage of `clean_data` (its step 1). -/
def dedupRows (df : CDF) : List (List Val) := firstDedup df.rows

/-- Output schema: date-named columns end up with datetime dtype. -/
def cleanSchema (schema : List (String × Dtype)) : List (String × Dtype) :=
  schema.map (fun p => if isDateName p.1 then (p.1, Dtype.datetime) else p)

/-- `data_processing.clean_data`: deduplicate rows, then apply the cell-wise
cleaning steps with each numeric column's median computed over the
deduplicated data. -/
def clean_data (df : CDF) : CDF :=
  let rows1 := dedupRows df
  let med := fun j => medianQ (numsOf (colOf rows1 j))
  let n := df.schema.length
  ⟨cleanSchema df.schema,
   rows1.map (fun r => (List.range n).map (fun j =>
     let p := df.schema.getD j ("", Dtype.text)
     cleanCell p.1 p.2 (med j) (r.getD j Val.na)))⟩

/-! ## Concrete tables used by the witnesses and counterexamples -/

/-- A three-row fact table: two years of sales for products A and B, with B
active only in the prior year (the spec's own end-to-end scenario numbers). -/
def exDF : DF :=
  ⟨[("OrderDate", [Val.date 2023 5 1, Val.date 2022 4 1, Val.date 2022 6 2]),
    ("Product", [Val.str "A", Val.str "A", Val.str "B"]),
    ("Order Quantity", [Val.num 2, Val.num 1, Val.num 3]),
    ("Unit Selling Price", [Val.num 10, Val.num 10, Val.num 5]),
    ("Unit Cost", [Val.num 4, Val.num 4, Val.num 2])]⟩

/-- `prepare_sales_columns exDF`, written out. -/
def exPrepDF : DF :=
  ⟨[("OrderDate", [Val.date 2023 5 1, Val.date 2022 4 1, Val.date 2022 6 2]),
    ("Product", [Val.str "A", Val.str "A", Val.str "B"]),
    ("Order Quantity", [Val.num 2, Val.num 1, Val.num 3]),
    ("Unit Selling Price", [Val.num 10, Val.num 10, Val.num 5]),
    ("Unit Cost", [Val.num 4, Val.num 4, Val.num 2]),
    ("Sales", [Val.num 20, Val.num 10, Val.num 15]),
    ("Total_Cost", [Val.num 8, Val.num 4, Val.num 6]),
    ("Profit", [Val.num 12, Val.num 6, Val.num 9])]⟩

/-- The per-dimension aggregate of `exDF` for current year 2024 (a year with
no rows): every current-year column is zero. -/
def exRes2024 : DF :=
  ⟨[("Product", [Val.str "A"]),
    ("Sales_CY", [Val.num 0]),
    ("Profit_CY", [Val.num 0]),
    ("Qty_CY", [Val.num 0]),
    ("Cost_CY", [Val.num 0]),
    ("Sales_PY", [Val.num 20]),
    ("Profit_PY", [Val.num 12]),
    ("Qty_PY", [Val.num 2]),
    ("Sales_Var", [Val.num (-20)]),
    ("Sales_Var_Pct", [Val.num 0]),
    ("Profit_Margin_Pct", [Val.num 0])]⟩

/-- The per-dimension aggregate of `exDF` with the current year inferred
(2023): product B survives the outer join with zeroed current-year columns. -/
def exResNone : DF :=
  ⟨[("Product", [Val.str "A", Val.str "B"]),
    ("Sales_CY", [Val.num 20, Val.num 0]),
    ("Profit_CY", [Val.num 12, Val.num 0]),
    ("Qty_CY", [Val.num 2, Val.num 0]),
    ("Cost_CY", [Val.num 8, Val.num 0]),
    ("Sales_PY", [Val.num 10, Val.num 15]),
    ("Profit_PY", [Val.num 6, Val.num 9]),
    ("Qty_PY", [Val.num 1, Val.num 3]),
    ("Sales_Var", [Val.num 10, Val.num (-15)]),
    ("Sales_Var_Pct", [Val.num 50, Val.num 0]),
    ("Profit_Margin_Pct", [Val.num 60, Val.num 0])]⟩

/-- A one-row fact table holding only the three prerequisite columns. -/
def exRaw : DF :=
  ⟨[("Order Quantity", [Val.num 2]),
    ("Unit Selling Price", [Val.num 10]),
    ("Unit Cost", [Val.num 4])]⟩

/-- `prepare_sales_columns exRaw`, written out. -/
def exRawPrep : DF :=
  ⟨[("Order Quantity", [Val.num 2]),
    ("Unit Selling Price", [Val.num 10]),
    ("Unit Cost", [Val.num 4]),
    ("Sales", [Val.num 20]),
    ("Total_Cost", [Val.num 8]),
    ("Profit", [Val.num 12])]⟩

/-- The one-row calendar over 2020-01-01 (day 18262) with fiscal start
April: January falls in fiscal year 2019, fiscal quarter 4. -/
def exCalJan : CalTable :=
  ⟨[{ Date := 18262, Year := 2020, Quarter := 1, Month := 1, Day := 1,
      Day_Of_Week := 3, Day_Of_Year := 1, Is_Weekend := false,
      Date_PY := 17897, Fiscal_Year := 2019, Fiscal_Quarter := 4 }]⟩

/-- Cleaner input with two distinct rows that imputation maps to the same
row, and a numeric column whose values are all missing. -/
def exDirty : CDF :=
  ⟨[("Order Quantity", Dtype.number), ("X", Dtype.number)],
   [[Val.num 1, Val.na], [Val.na, Val.na]]⟩

/-- Cleaner input exercising the median/text/absolute-value paths. -/
def exDirty2 : CDF :=
  ⟨[("Order Quantity", Dtype.number), ("Customer", Dtype.text)],
   [[Val.num (-2), Val.na], [Val.na, Val.str "x"], [Val.num 4, Val.str "y"]]⟩

/-! # Theorems

Helper lemmas first, then one theorem per claim (with its witness or
counterexample where required). -/

set_option maxRecDepth 8000

theorem exbind_ok {ε α β : Type _} (a : α) (f : α → Except ε β) :
    (Except.ok a >>= f) = f a := rfl

theorem exbind_error {ε α β : Type _} (e : ε) (f : α → Except ε β) :
    ((Except.error e : Except ε α) >>= f) = Except.error e := rfl

theorem any_fst_map_ite (l : List (String × List Val)) (c c' : String)
    (v : List Val) :
    (l.map (fun p => if p.1 == c then (c, v) else p)).any (fun p => p.1 == c') =
      l.any (fun p => p.1 == c') := by
  induction l with
  | nil => rfl
  | cons p l ih =>
      simp only [List.map_cons, List.any_cons]
      rw [ih]
      by_cases hp : (p.1 == c) = true
      · have hc : p.1 = c := by simpa using hp
        rw [if_pos hp, hc]
      · rw [if_neg hp]

theorem hasCol_setCol (df : DF) (c : String) (v : List Val) (c' : String) :
    (df.setCol c v).hasCol c' = (df.hasCol c' || (c == c')) := by
  unfold DF.setCol
  by_cases h : df.hasCol c
  · simp only [h, if_true]
    show (df.cols.map _).any _ = _
    rw [any_fst_map_ite]
    by_cases hcc : c == c'
    · have : c = c' := by simpa using hcc
      subst this
      simp [DF.hasCol] at h ⊢
      simp [h]
    · simp [DF.hasCol, hcc]
  · simp only [h, Bool.false_eq_true, if_false]
    show (df.cols ++ [(c, v)]).any _ = _
    simp [DF.hasCol, List.any_append]

theorem hasCol_setCol_self (df : DF) (c : String) (v : List Val) :
    (df.setCol c v).hasCol c = true := by
  simp [hasCol_setCol]

theorem hasCol_setCol_of (df : DF) (c c' : String) (v : List Val)
    (h : df.hasCol c' = true) : (df.setCol c v).hasCol c' = true := by
  simp [hasCol_setCol, h]

theorem ensureSales_ok (df g : DF) (h : ensureSales df = .ok g) :
    g.hasCol "Sales" = true ∧ ∀ c, df.hasCol c = true → g.hasCol c = true := by
  unfold ensureSales at h
  by_cases hs : df.hasCol "Sales"
  · simp only [hs, if_true, Except.ok.injEq] at h
    subst h; exact ⟨hs, fun c hc => hc⟩
  · simp only [hs, Bool.false_eq_true, if_false] at h
    unfold requireCol at h
    by_cases h1 : df.hasCol "Order Quantity" <;>
      by_cases h2 : df.hasCol "Unit Selling Price" <;>
        simp only [h1, h2, if_true, if_false, Bool.false_eq_true,
          exbind_ok, exbind_error, Except.ok.injEq, reduceCtorEq] at h
    subst h
    exact ⟨hasCol_setCol_self _ _ _, fun c hc => hasCol_setCol_of _ _ _ _ hc⟩

theorem ensureTotalCost_ok (df g : DF) (h : ensureTotalCost df = .ok g) :
    g.hasCol "Total_Cost" = true ∧
      ∀ c, df.hasCol c = true → g.hasCol c = true := by
  unfold ensureTotalCost at h
  by_cases hs : df.hasCol "Total_Cost"
  · simp only [hs, if_true, Except.ok.injEq] at h
    subst h; exact ⟨hs, fun c hc => hc⟩
  · simp only [hs, Bool.false_eq_true, if_false] at h
    unfold requireCol at h
    by_cases h1 : df.hasCol "Order Quantity" <;>
      by_cases h2 : df.hasCol "Unit Cost" <;>
        simp only [h1, h2, if_true, if_false, Bool.false_eq_true,
          exbind_ok, exbind_error, Except.ok.injEq, reduceCtorEq] at h
    subst h
    exact ⟨hasCol_setCol_self _ _ _, fun c hc => hasCol_setCol_of _ _ _ _ hc⟩

theorem ensureProfit_ok (df g : DF) (h : ensureProfit df = .ok g) :
    g.hasCol "Profit" = true ∧
      ∀ c, df.hasCol c = true → g.hasCol c = true := by
  unfold ensureProfit at h
  by_cases hs : df.hasCol "Profit"
  · simp only [hs, if_true, Except.ok.injEq] at h
    subst h; exact ⟨hs, fun c hc => hc⟩
  · simp only [hs, Bool.false_eq_true, if_false] at h
    unfold requireCol at h
    by_cases h1 : df.hasCol "Sales" <;>
      by_cases h2 : df.hasCol "Total_Cost" <;>
        simp only [h1, h2, if_true, if_false, Bool.false_eq_true,
          exbind_ok, exbind_error, Except.ok.injEq, reduceCtorEq] at h
    subst h
    exact ⟨hasCol_setCol_self _ _ _, fun c hc => hasCol_setCol_of _ _ _ _ hc⟩

theorem prepare_hasCols (df g : DF) (h : prepare_sales_columns df = .ok g) :
    g.hasCol "Sales" = true ∧ g.hasCol "Total_Cost" = true ∧
      g.hasCol "Profit" = true := by
  unfold prepare_sales_columns at h
  cases h1 : ensureSales df with
  | error e => rw [h1, exbind_error] at h; exact (Except.noConfusion h)
  | ok d1 =>
      rw [h1, exbind_ok] at h
      cases h2 : ensureTotalCost d1 with
      | error e => rw [h2, exbind_error] at h; exact (Except.noConfusion h)
      | ok d2 =>
          rw [h2, exbind_ok] at h
          obtain ⟨hs1, hm1⟩ := ensureSales_ok _ _ h1
          obtain ⟨hs2, hm2⟩ := ensureTotalCost_ok _ _ h2
          obtain ⟨hs3, hm3⟩ := ensureProfit_ok _ _ h
          exact ⟨hm3 _ (hm2 _ hs1), hm3 _ hs2, hs3⟩

theorem ensureSales_of_hasCol (df : DF) (h : df.hasCol "Sales" = true) :
    ensureSales df = .ok df := by
  unfold ensureSales; simp [h]

theorem ensureTotalCost_of_hasCol (df : DF)
    (h : df.hasCol "Total_Cost" = true) : ensureTotalCost df = .ok df := by
  unfold ensureTotalCost; simp [h]

theorem ensureProfit_of_hasCol (df : DF) (h : df.hasCol "Profit" = true) :
    ensureProfit df = .ok df := by
  unfold ensureProfit; simp [h]

/-- C10: the ensure-derived-columns step is idempotent — whenever
`prepare_sales_columns` succeeds, re-applying it to its own output returns
that output unchanged. -/
theorem prepare_sales_columns_idempotent (df g : DF)
    (h : prepare_sales_columns df = .ok g) :
    prepare_sales_columns g = .ok g := by
  obtain ⟨h1, h2, h3⟩ := prepare_hasCols df g h
  unfold prepare_sales_columns
  rw [ensureSales_of_hasCol g h1]
  simp only [exbind_ok]
  rw [ensureTotalCost_of_hasCol g h2]
  simp only [exbind_ok]
  exact ensureProfit_of_hasCol g h3

/-- Witness for C10 at a concrete fact table lacking all derived columns. -/
theorem prepare_sales_columns_idempotent_witness :
    prepare_sales_columns exRaw = .ok exRawPrep ∧
      prepare_sales_columns exRawPrep = .ok exRawPrep :=
  ⟨of_decide_eq_true (by with_unfolding_all rfl),
   prepare_sales_columns_idempotent exRaw exRawPrep
     (of_decide_eq_true (by with_unfolding_all rfl))⟩

theorem hasCol_setCol_other (df : DF) (c c' : String) (v : List Val)
    (hne : (c == c') = false) : (df.setCol c v).hasCol c' = df.hasCol c' := by
  simp [hasCol_setCol, hne]

theorem ensureSales_cases (df g : DF) (h : ensureSales df = .ok g) :
    g = df ∨ ∃ v, g = df.setCol "Sales" v := by
  unfold ensureSales at h
  by_cases hs : df.hasCol "Sales" = true
  · simp only [hs, if_true, Except.ok.injEq] at h; exact Or.inl h.symm
  · simp only [hs, Bool.false_eq_true, if_false] at h
    unfold requireCol at h
    by_cases h1 : df.hasCol "Order Quantity" = true <;>
      by_cases h2 : df.hasCol "Unit Selling Price" = true <;>
        simp only [h1, h2, if_true, if_false, Bool.false_eq_true,
          exbind_ok, exbind_error, Except.ok.injEq, reduceCtorEq] at h
    exact Or.inr ⟨_, h.symm⟩

theorem ensureTotalCost_cases (df g : DF) (h : ensureTotalCost df = .ok g) :
    g = df ∨ ∃ v, g = df.setCol "Total_Cost" v := by
  unfold ensureTotalCost at h
  by_cases hs : df.hasCol "Total_Cost" = true
  · simp only [hs, if_true, Except.ok.injEq] at h; exact Or.inl h.symm
  · simp only [hs, Bool.false_eq_true, if_false] at h
    unfold requireCol at h
    by_cases h1 : df.hasCol "Order Quantity" = true <;>
      by_cases h2 : df.hasCol "Unit Cost" = true <;>
        simp only [h1, h2, if_true, if_false, Bool.false_eq_true,
          exbind_ok, exbind_error, Except.ok.injEq, reduceCtorEq] at h
    exact Or.inr ⟨_, h.symm⟩

theorem ensureSales_ok_iff (df : DF) :
    (∃ g, ensureSales df = .ok g) ↔
      (df.hasCol "Sales" = true ∨
        (df.hasCol "Order Quantity" = true ∧
         df.hasCol "Unit Selling Price" = true)) := by
  unfold ensureSales requireCol
  by_cases hs : df.hasCol "Sales" = true
  · simp [hs]
  · by_cases h1 : df.hasCol "Order Quantity" = true <;>
      by_cases h2 : df.hasCol "Unit Selling Price" = true <;>
        simp [hs, h1, h2, exbind_ok, exbind_error]

theorem ensureTotalCost_ok_iff (df : DF) :
    (∃ g, ensureTotalCost df = .ok g) ↔
      (df.hasCol "Total_Cost" = true ∨
        (df.hasCol "Order Quantity" = true ∧ df.hasCol "Unit Cost" = true)) := by
  unfold ensureTotalCost requireCol
  by_cases hs : df.hasCol "Total_Cost" = true
  · simp [hs]
  · by_cases h1 : df.hasCol "Order Quantity" = true <;>
      by_cases h2 : df.hasCol "Unit Cost" = true <;>
        simp [hs, h1, h2, exbind_ok, exbind_error]

theorem ensureProfit_ok_iff (df : DF) :
    (∃ g, ensureProfit df = .ok g) ↔
      (df.hasCol "Profit" = true ∨
        (df.hasCol "Sales" = true ∧ df.hasCol "Total_Cost" = true)) := by
  unfold ensureProfit requireCol
  by_cases hs : df.hasCol "Profit" = true
  · simp [hs]
  · by_cases h1 : df.hasCol "Sales" = true <;>
      by_cases h2 : df.hasCol "Total_Cost" = true <;>
        simp [hs, h1, h2, exbind_ok, exbind_error]

theorem checked_yoy_ok_iff (df : DF) (dc vc : String) (cy : Option Int) :
    (∃ r, checked_yoy df dc vc cy = .ok r) ↔
      (df.hasCol dc = true ∧ df.hasCol vc = true) := by
  unfold checked_yoy requireCol
  by_cases h1 : df.hasCol dc = true <;> by_cases h2 : df.hasCol vc = true <;>
    simp [h1, h2, exbind_ok, exbind_error]

theorem checked_yoy_of_hasCol (df : DF) (dc vc : String) (cy : Option Int)
    (h1 : df.hasCol dc = true) (h2 : df.hasCol vc = true) :
    checked_yoy df dc vc cy = .ok (calculate_yoy df dc vc cy) := by
  unfold checked_yoy requireCol
  rw [if_pos h1, exbind_ok, if_pos h2, exbind_ok]

/-- C8 (amended): the ensure-derived-columns step succeeds exactly when each
absent derived column has its prerequisite columns present: it tolerates a
fact table whose derivation was skipped upstream only when `Order Quantity`
together with `Unit Selling Price` (for `Sales`) and with `Unit Cost` (for
`Total_Cost`) are available; otherwise the bare column access raises a
`KeyError`. The scalar engine demands more still: `calculate_all_measures`
succeeds exactly when the prepare step does and its output carries the date
column and `Order Quantity`, whose bare reads inside the `calculate_yoy`
calls otherwise raise a `KeyError` of their own. -/
theorem prepare_sales_columns_ok_iff (df : DF) (dc : String)
    (cy : Option Int) :
    ((∃ g, prepare_sales_columns df = .ok g) ↔
      ((df.hasCol "Sales" = true ∨
        (df.hasCol "Order Quantity" = true ∧
         df.hasCol "Unit Selling Price" = true)) ∧
       (df.hasCol "Total_Cost" = true ∨
        (df.hasCol "Order Quantity" = true ∧ df.hasCol "Unit Cost" = true)))) ∧
    ((∃ m, calculate_all_measures df dc cy = .ok m) ↔
      (∃ g, prepare_sales_columns df = .ok g ∧ g.hasCol dc = true ∧
        g.hasCol "Order Quantity" = true)) := by
  constructor
  · constructor
    · rintro ⟨g, h⟩
      unfold prepare_sales_columns at h
      cases h1 : ensureSales df with
      | error e => rw [h1, exbind_error] at h; exact (Except.noConfusion h)
      | ok d1 =>
          rw [h1, exbind_ok] at h
          cases h2 : ensureTotalCost d1 with
          | error e => rw [h2, exbind_error] at h; exact (Except.noConfusion h)
          | ok d2 =>
              refine ⟨(ensureSales_ok_iff df).mp ⟨d1, h1⟩, ?_⟩
              have hd1 : ∀ c, ("Sales" == c) = false →
                  d1.hasCol c = df.hasCol c := by
                intro c hc
                rcases ensureSales_cases df d1 h1 with rfl | ⟨v, rfl⟩
                · rfl
                · exact hasCol_setCol_other df _ c v hc
              have := (ensureTotalCost_ok_iff d1).mp ⟨d2, h2⟩
              rw [hd1 "Total_Cost" (by decide), hd1 "Order Quantity" (by decide),
                hd1 "Unit Cost" (by decide)] at this
              exact this
    · rintro ⟨hc1, hc2⟩
      obtain ⟨d1, h1⟩ := (ensureSales_ok_iff df).mpr hc1
      have hd1 : ∀ c, ("Sales" == c) = false → d1.hasCol c = df.hasCol c := by
        intro c hc
        rcases ensureSales_cases df d1 h1 with rfl | ⟨v, rfl⟩
        · rfl
        · exact hasCol_setCol_other df _ c v hc
      obtain ⟨d2, h2⟩ := (ensureTotalCost_ok_iff d1).mpr (by
        rw [hd1 "Total_Cost" (by decide), hd1 "Order Quantity" (by decide),
          hd1 "Unit Cost" (by decide)]
        exact hc2)
      obtain ⟨hS1, hM1⟩ := ensureSales_ok df d1 h1
      obtain ⟨hT2, hM2⟩ := ensureTotalCost_ok d1 d2 h2
      obtain ⟨g, h3⟩ := (ensureProfit_ok_iff d2).mpr (Or.inr ⟨hM2 _ hS1, hT2⟩)
      refine ⟨g, ?_⟩
      unfold prepare_sales_columns
      rw [h1, exbind_ok, h2, exbind_ok, h3]
  · constructor
    · rintro ⟨m, h⟩
      unfold calculate_all_measures at h
      cases hp : prepare_sales_columns df with
      | error e => rw [hp, exbind_error] at h; exact (Except.noConfusion h)
      | ok g =>
          rw [hp, exbind_ok] at h
          cases hs : checked_yoy g dc "Sales" cy with
          | error e => rw [hs, exbind_error] at h; exact (Except.noConfusion h)
          | ok s =>
              rw [hs, exbind_ok] at h
              cases hpr : checked_yoy g dc "Profit" cy with
              | error e =>
                  rw [hpr, exbind_error] at h
                  exact (Except.noConfusion h)
              | ok p =>
                  rw [hpr, exbind_ok] at h
                  cases htc : requireCol g "Total_Cost" with
                  | error e =>
                      rw [htc, exbind_error] at h
                      exact (Except.noConfusion h)
                  | ok tc =>
                      rw [htc, exbind_ok] at h
                      cases hq : checked_yoy g dc "Order Quantity" cy with
                      | error e =>
                          rw [hq, exbind_error] at h
                          exact (Except.noConfusion h)
                      | ok q =>
                          have h1 := (checked_yoy_ok_iff g dc "Sales" cy).mp
                            ⟨s, hs⟩
                          have h2 :=
                            (checked_yoy_ok_iff g dc "Order Quantity" cy).mp
                              ⟨q, hq⟩
                          exact ⟨g, rfl, h1.1, h2.2⟩
    · rintro ⟨g, hp, hdc, hoq⟩
      obtain ⟨hS, hT, hP⟩ := prepare_hasCols df g hp
      unfold calculate_all_measures
      rw [hp, exbind_ok, checked_yoy_of_hasCol g dc "Sales" cy hdc hS,
        exbind_ok, checked_yoy_of_hasCol g dc "Profit" cy hdc hP, exbind_ok]
      unfold requireCol
      rw [if_pos hT, exbind_ok,
        checked_yoy_of_hasCol g dc "Order Quantity" cy hdc hoq, exbind_ok]
      exact ⟨_, rfl⟩

/-- Witness for C8 (amended): `exRaw` misses every derived column but has
all prerequisites, so the prepare step succeeds on it; `exDF`'s prepared
frame carries the date and quantity columns, so the full scalar engine
succeeds there as well. -/
theorem prepare_sales_columns_ok_iff_witness :
    ((exRaw.hasCol "Sales" = true ∨
      (exRaw.hasCol "Order Quantity" = true ∧
       exRaw.hasCol "Unit Selling Price" = true)) ∧
     (exRaw.hasCol "Total_Cost" = true ∨
      (exRaw.hasCol "Order Quantity" = true ∧
       exRaw.hasCol "Unit Cost" = true))) ∧
    (∃ g, prepare_sales_columns exRaw = .ok g) ∧
    (prepare_sales_columns exDF = .ok exPrepDF ∧
     exPrepDF.hasCol "OrderDate" = true ∧
     exPrepDF.hasCol "Order Quantity" = true) ∧
    (∃ m, calculate_all_measures exDF "OrderDate" none = .ok m) := by
  have hp : prepare_sales_columns exDF = .ok exPrepDF :=
    of_decide_eq_true (by with_unfolding_all rfl)
  exact ⟨⟨Or.inr ⟨by decide, by decide⟩, Or.inr ⟨by decide, by decide⟩⟩,
    ((prepare_sales_columns_ok_iff exRaw "OrderDate" none).1).mpr
      ⟨Or.inr ⟨by decide, by decide⟩, Or.inr ⟨by decide, by decide⟩⟩,
    ⟨hp, by decide, by decide⟩,
    ((prepare_sales_columns_ok_iff exDF "OrderDate" none).2).mpr
      ⟨exPrepDF, hp, by decide, by decide⟩⟩

/-- Counterexample to C8 as stated: on a fact table with no columns at all —
derivation skipped upstream precisely because the prerequisites are absent —
the ensure step (and hence `calculate_all_measures`) raises a `KeyError`
instead of accepting the table; and even where the ensure step succeeds —
`exRaw` has every prerequisite — the engine still raises a `KeyError` for
the absent date column, so missing optional columns are errors in the
engine, contrary to the claim. -/
theorem prepare_sales_columns_keyerror_counterexample :
    prepare_sales_columns ⟨[]⟩ = .error "KeyError: Order Quantity" ∧
      calculate_all_measures ⟨[]⟩ "OrderDate" none =
        .error "KeyError: Order Quantity" ∧
      prepare_sales_columns exRaw = .ok exRawPrep ∧
      calculate_all_measures exRaw "OrderDate" none =
        .error "KeyError: OrderDate" := by
  refine ⟨by decide, by decide, ?_, ?_⟩ <;>
    exact of_decide_eq_true (by with_unfolding_all rfl)

theorem le_foldl_max (l : List Int) (a : Int) : a ≤ l.foldl max a := by
  induction l generalizing a with
  | nil => exact le_refl a
  | cons x l ih => exact le_trans (le_max_left a x) (ih (max a x))

theorem mem_le_foldl_max (l : List Int) (a y : Int) (hy : y ∈ l) :
    y ≤ l.foldl max a := by
  induction l generalizing a with
  | nil => cases hy
  | cons x l ih =>
      rcases List.mem_cons.mp hy with rfl | hm
      · exact le_trans (le_max_right a y) (le_foldl_max l (max a y))
      · exact ih (max a x) hm

theorem foldl_max_mem (l : List Int) (a : Int) :
    l.foldl max a = a ∨ l.foldl max a ∈ l := by
  induction l generalizing a with
  | nil => exact Or.inl rfl
  | cons x l ih =>
      rcases ih (max a x) with h | h
      · rcases max_choice a x with hm | hm
        · exact Or.inl (by rw [List.foldl_cons, h, hm])
        · exact Or.inr (by rw [List.foldl_cons, h, hm]; exact List.mem_cons_self x l)
      · exact Or.inr (List.mem_cons_of_mem x h)

theorem listMax_mem (l : List Int) (h : l ≠ []) : listMax l ∈ l := by
  cases l with
  | nil => exact absurd rfl h
  | cons x xs =>
      rcases foldl_max_mem xs x with hm | hm
      · rw [listMax, hm]; exact List.mem_cons_self x xs
      · exact List.mem_cons_of_mem x hm

theorem le_listMax (l : List Int) (y : Int) (hy : y ∈ l) : y ≤ listMax l := by
  cases l with
  | nil => cases hy
  | cons x xs =>
      rcases List.mem_cons.mp hy with rfl | hm
      · exact le_foldl_max xs y
      · exact mem_le_foldl_max xs x y hm

theorem yearSum_of_not_mem (df : DF) (dc vc : String) (y : Int)
    (h : y ∉ colYears df dc) : yearSum df dc vc y = 0 := by
  unfold yearSum filterByYear
  rw [List.filterMap_eq_nil_iff.mpr, List.map_nil, List.sum_nil]
  rintro ⟨a, b⟩ hp
  rw [if_neg]
  intro he
  exact h (he ▸ List.mem_map_of_mem valYear (List.of_mem_zip hp).1)

/-- C7: with no explicit current year the engine uses the maximum calendar
year present in the date column; the prior year is always `current_year - 1`
(its total is the sum over that exact year); a year with no matching rows
contributes a zero total (there is no error path in the year filtering). -/
theorem measures_year_defaults (df : DF) (dc vc : String) :
    (colYears df dc ≠ [] →
       resolveYear df dc none ∈ colYears df dc ∧
       ∀ y ∈ colYears df dc, y ≤ resolveYear df dc none) ∧
    (∀ cy : Int,
       (calculate_yoy df dc vc (some cy)).1 = yearSum df dc vc cy ∧
       (calculate_yoy df dc vc (some cy)).2.1 = yearSum df dc vc (cy - 1)) ∧
    (∀ y : Int, y ∉ colYears df dc → yearSum df dc vc y = 0) := by
  refine ⟨fun h => ⟨listMax_mem _ h, fun y hy => le_listMax _ y hy⟩, ?_, ?_⟩
  · intro cy; exact ⟨rfl, rfl⟩
  · intro y hy; exact yearSum_of_not_mem df dc vc y hy

/-- Witness for C7: on `exDF` the inferred year is 2023, the maximum present;
2025 has no rows and its total is 0. -/
theorem measures_year_defaults_witness :
    (colYears exDF "OrderDate" ≠ [] ∧
      (resolveYear exDF "OrderDate" none ∈ colYears exDF "OrderDate" ∧
       ∀ y ∈ colYears exDF "OrderDate", y ≤ resolveYear exDF "OrderDate" none)) ∧
    ((2025 : Int) ∉ colYears exDF "OrderDate" ∧
      yearSum exDF "OrderDate" "Order Quantity" 2025 = 0) :=
  ⟨⟨by decide, (measures_year_defaults exDF "OrderDate" "Order Quantity").1
      (by decide)⟩,
   ⟨by decide, (measures_year_defaults exDF "OrderDate" "Order Quantity").2.2
      2025 (by decide)⟩⟩

theorem getCol_mk_cons (a : String) (v : List Val)
    (rest : List (String × List Val)) (c : String) :
    DF.getCol ⟨(a, v) :: rest⟩ c =
      if (a == c) = true then v else DF.getCol ⟨rest⟩ c := by
  by_cases h : (a == c) = true <;> simp [DF.getCol, List.find?, h]

theorem reserved_beq_false (dim c : String) (hdim : reservedName dim = false)
    (hc : reservedName c = true) : (dim == c) = false := by
  cases h : (dim == c) with
  | false => rfl
  | true =>
      have he : dim = c := by simpa using h
      rw [he, hc] at hdim
      cases hdim

theorem bydim_ok_iff (df0 res : DF) (dim dc : String) (cy : Option Int) :
    calculate_measures_by_dimension df0 dim dc cy = .ok res ↔
      ∃ df, prepare_sales_columns df0 = .ok df ∧
        res = aggDF df dim dc (resolveYear df dc cy) := by
  constructor
  · intro h
    unfold calculate_measures_by_dimension at h
    cases hp : prepare_sales_columns df0 with
    | error e => rw [hp, exbind_error] at h; exact (Except.noConfusion h)
    | ok df =>
        rw [hp, exbind_ok] at h
        exact ⟨df, rfl, ((Except.ok.injEq _ _).mp h).symm⟩
  · rintro ⟨df, hdf, rfl⟩
    unfold calculate_measures_by_dimension
    rw [hdf, exbind_ok]

theorem getCol_aggDF_dim (df : DF) (dim dc : String) (cy : Int) :
    (aggDF df dim dc cy).getCol dim = aggKeys df dc dim cy := by
  show DF.getCol ⟨_ :: _⟩ dim = _
  rw [getCol_mk_cons, if_pos (by simp)]

theorem getCol_aggDF_reserved (df : DF) (dim dc : String) (cy : Int)
    (hdim : reservedName dim = false) :
    (aggDF df dim dc cy).getCol "Sales_CY" =
        mergeFillCol (aggKeys df dc dim cy) (groupKeys df dc dim cy)
          (groupSum df dc dim "Sales" cy) ∧
      (aggDF df dim dc cy).getCol "Profit_CY" =
        mergeFillCol (aggKeys df dc dim cy) (groupKeys df dc dim cy)
          (groupSum df dc dim "Profit" cy) ∧
      (aggDF df dim dc cy).getCol "Qty_CY" =
        mergeFillCol (aggKeys df dc dim cy) (groupKeys df dc dim cy)
          (groupSum df dc dim "Order Quantity" cy) ∧
      (aggDF df dim dc cy).getCol "Cost_CY" =
        mergeFillCol (aggKeys df dc dim cy) (groupKeys df dc dim cy)
          (groupSum df dc dim "Total_Cost" cy) ∧
      (aggDF df dim dc cy).getCol "Sales_PY" =
        mergeFillCol (aggKeys df dc dim cy) (groupKeys df dc dim (cy - 1))
          (groupSum df dc dim "Sales" (cy - 1)) ∧
      (aggDF df dim dc cy).getCol "Profit_PY" =
        mergeFillCol (aggKeys df dc dim cy) (groupKeys df dc dim (cy - 1))
          (groupSum df dc dim "Profit" (cy - 1)) ∧
      (aggDF df dim dc cy).getCol "Qty_PY" =
        mergeFillCol (aggKeys df dc dim cy) (groupKeys df dc dim (cy - 1))
          (groupSum df dc dim "Order Quantity" (cy - 1)) ∧
      (aggDF df dim dc cy).getCol "Sales_Var_Pct" =
        whereRatio
          (mergeFillCol (aggKeys df dc dim cy) (groupKeys df dc dim cy)
            (groupSum df dc dim "Sales" cy))
          (seriesSub
            (mergeFillCol (aggKeys df dc dim cy) (groupKeys df dc dim cy)
              (groupSum df dc dim "Sales" cy))
            (mergeFillCol (aggKeys df dc dim cy) (groupKeys df dc dim (cy - 1))
              (groupSum df dc dim "Sales" (cy - 1)))) := by
  have h1 := reserved_beq_false dim "Sales_CY" hdim (by decide)
  have h2 := reserved_beq_false dim "Profit_CY" hdim (by decide)
  have h3 := reserved_beq_false dim "Qty_CY" hdim (by decide)
  have h4 := reserved_beq_false dim "Cost_CY" hdim (by decide)
  have h5 := reserved_beq_false dim "Sales_PY" hdim (by decide)
  have h6 := reserved_beq_false dim "Profit_PY" hdim (by decide)
  have h7 := reserved_beq_false dim "Qty_PY" hdim (by decide)
  have h8 := reserved_beq_false dim "Sales_Var" hdim (by decide)
  have h9 := reserved_beq_false dim "Sales_Var_Pct" hdim (by decide)
  have h10 := reserved_beq_false dim "Profit_Margin_Pct" hdim (by decide)
  unfold aggDF
  refine ⟨?_, ?_, ?_, ?_, ?_, ?_, ?_, ?_⟩ <;>
    simp [getCol_mk_cons, h1, h2, h3, h4, h5, h6, h7, h8, h9, h10]

theorem length_mergeFillCol (keys side : List Val) (f : Val → ℚ) :
    (mergeFillCol keys side f).length = keys.length := by
  simp [mergeFillCol]

theorem mergeFillCol_getD (keys side : List Val) (f : Val → ℚ) (i : Nat)
    (h : i < keys.length) :
    (mergeFillCol keys side f).getD i Val.na =
      (if side.contains (keys.get ⟨i, h⟩) then Val.num (f (keys.get ⟨i, h⟩))
       else Val.num 0) := by
  unfold mergeFillCol
  rw [List.getD_eq_getElem _ _ (by simpa using h), List.getElem_map,
    List.getElem_map]
  by_cases hc : keys[i] ∈ side
  · simp [hc]
  · simp [hc]

theorem whereRatio_getD (a b : List Val) (i : Nat) (ha : i < a.length)
    (hb : i < b.length) :
    (whereRatio a b).getD i Val.na =
      (if valNum (a.get ⟨i, ha⟩) ≠ 0 then
        Val.num (valNum (b.get ⟨i, hb⟩) / valNum (a.get ⟨i, ha⟩) * 100)
       else Val.num 0) := by
  unfold whereRatio
  rw [List.getD_eq_getElem _ _ (by simp [List.length_zipWith]; omega),
    List.getElem_zipWith]
  rfl

/-- C1: when the current-year total of the value column is exactly 0, the YoY
percentage variance is 0 regardless of the prior-year total — both in the
scalar engine (`calculate_yoy`, a total function: the guard replaces the
division) and per-row in the per-dimension aggregate. -/
theorem yoy_zero_guard :
    (∀ (df : DF) (dc vc : String) (cy : Option Int),
       (calculate_yoy df dc vc cy).1 = 0 →
       (calculate_yoy df dc vc cy).2.2.2 = 0) ∧
    (∀ (df0 res : DF) (dim dc : String) (cy : Option Int) (i : Nat),
       reservedName dim = false →
       calculate_measures_by_dimension df0 dim dc cy = .ok res →
       res.cell "Sales_CY" i = Val.num 0 →
       res.cell "Sales_Var_Pct" i = Val.num 0) := by
  constructor
  · intro df dc vc cy h
    simp only [calculate_yoy] at h ⊢
    rw [if_neg (not_not_intro h)]
  · intro df0 res dim dc cy i hdim hok h0
    obtain ⟨df, hp, rfl⟩ := (bydim_ok_iff df0 res dim dc cy).mp hok
    obtain ⟨hscy, -, -, -, -, -, -, hpct⟩ :=
      getCol_aggDF_reserved df dim dc (resolveYear df dc cy) hdim
    unfold DF.cell at h0 ⊢
    rw [hscy] at h0
    rw [hpct]
    by_cases hi : i < (aggKeys df dc dim (resolveYear df dc cy)).length
    · have hal : i < (mergeFillCol (aggKeys df dc dim (resolveYear df dc cy))
          (groupKeys df dc dim (resolveYear df dc cy))
          (groupSum df dc dim "Sales" (resolveYear df dc cy))).length := by
        rw [length_mergeFillCol]; exact hi
      have hbl : i < (seriesSub
          (mergeFillCol (aggKeys df dc dim (resolveYear df dc cy))
            (groupKeys df dc dim (resolveYear df dc cy))
            (groupSum df dc dim "Sales" (resolveYear df dc cy)))
          (mergeFillCol (aggKeys df dc dim (resolveYear df dc cy))
            (groupKeys df dc dim (resolveYear df dc cy - 1))
            (groupSum df dc dim "Sales" (resolveYear df dc cy - 1)))).length := by
        simp [seriesSub, List.length_zipWith, length_mergeFillCol]
        omega
      rw [List.getD_eq_getElem _ _ hal] at h0
      rw [whereRatio_getD _ _ i hal hbl, List.get_eq_getElem, h0]
      simp [valNum]
    · rw [List.getD_eq_default] at h0
      · exact absurd h0 (by simp)
      · rw [length_mergeFillCol]; omega

/-- Witness for C1: a current year with no rows (2025 scalar, 2024 per
dimension) yields zero totals and, by the guard, zero percentage variance. -/
theorem yoy_zero_guard_witness :
    ((calculate_yoy exDF "OrderDate" "Sales" (some 2025)).1 = 0 ∧
     (calculate_yoy exDF "OrderDate" "Sales" (some 2025)).2.2.2 = 0) ∧
    (reservedName "Product" = false ∧
     calculate_measures_by_dimension exDF "Product" "OrderDate" (some 2024) =
       .ok exRes2024 ∧
     exRes2024.cell "Sales_CY" 0 = Val.num 0 ∧
     exRes2024.cell "Sales_Var_Pct" 0 = Val.num 0) := by
  have ha : (calculate_yoy exDF "OrderDate" "Sales" (some 2025)).1 = 0 :=
    of_decide_eq_true (by with_unfolding_all rfl)
  have hb : calculate_measures_by_dimension exDF "Product" "OrderDate"
      (some 2024) = .ok exRes2024 :=
    of_decide_eq_true (by with_unfolding_all rfl)
  have hc : exRes2024.cell "Sales_CY" 0 = Val.num 0 :=
    of_decide_eq_true (by with_unfolding_all rfl)
  exact ⟨⟨ha, yoy_zero_guard.1 exDF "OrderDate" "Sales" (some 2025) ha⟩,
    ⟨by decide, hb, hc,
      yoy_zero_guard.2 exDF exRes2024 "Product" "OrderDate" (some 2024) 0
        (by decide) hb hc⟩⟩

theorem mem_of_mem_groupKeys (df : DF) (dc dim : String) (y : Int) (k : Val)
    (h : k ∈ groupKeys df dc dim y) : k ∈ yearDimVals df dc dim y :=
  (List.mem_filter.mp (List.mem_dedup.mp h)).1

theorem mem_groupKeys (df : DF) (dc dim : String) (y : Int) (k : Val)
    (h : k ∈ yearDimVals df dc dim y) (hk : k ≠ Val.na) :
    k ∈ groupKeys df dc dim y :=
  List.mem_dedup.mpr (List.mem_filter.mpr ⟨h, by simpa using hk⟩)

theorem mem_aggKeys_left (df : DF) (dc dim : String) (cy : Int) (k : Val)
    (h : k ∈ groupKeys df dc dim cy) : k ∈ aggKeys df dc dim cy :=
  List.mem_append_left _ h

theorem mem_aggKeys_right (df : DF) (dc dim : String) (cy : Int) (k : Val)
    (h : k ∈ groupKeys df dc dim (cy - 1))
    (hn : k ∉ groupKeys df dc dim cy) : k ∈ aggKeys df dc dim cy :=
  List.mem_append_right _ (List.mem_filter.mpr ⟨h, by simpa using hn⟩)

/-- C4: in the per-dimension aggregate, a dimension value present in only one
of the two years still appears as a row (full outer join): its key is in the
result, the missing side's numeric columns hold 0 (NaN filled by
`fillna(0)`), and the present side's columns hold the per-group sums of
`Sales` / `Profit` / `Order Quantity` (and `Total_Cost` on the current-year
side) over that value's rows of that year. -/
theorem bydim_outer_join_completeness (df0 df res : DF) (dim dc : String)
    (cy : Option Int) (v : Val) (hdim : reservedName dim = false)
    (hv : v ≠ Val.na)
    (hp : prepare_sales_columns df0 = .ok df)
    (hok : calculate_measures_by_dimension df0 dim dc cy = .ok res) :
    (v ∈ yearDimVals df dc dim (resolveYear df dc cy - 1) →
     v ∉ yearDimVals df dc dim (resolveYear df dc cy) →
     ∃ i : Nat,
       res.cell dim i = v ∧
       res.cell "Sales_CY" i = Val.num 0 ∧
       res.cell "Profit_CY" i = Val.num 0 ∧
       res.cell "Qty_CY" i = Val.num 0 ∧
       res.cell "Cost_CY" i = Val.num 0 ∧
       res.cell "Sales_PY" i =
         Val.num (groupSum df dc dim "Sales" (resolveYear df dc cy - 1) v) ∧
       res.cell "Profit_PY" i =
         Val.num (groupSum df dc dim "Profit" (resolveYear df dc cy - 1) v) ∧
       res.cell "Qty_PY" i =
         Val.num (groupSum df dc dim "Order Quantity"
           (resolveYear df dc cy - 1) v)) ∧
    (v ∈ yearDimVals df dc dim (resolveYear df dc cy) →
     v ∉ yearDimVals df dc dim (resolveYear df dc cy - 1) →
     ∃ i : Nat,
       res.cell dim i = v ∧
       res.cell "Sales_CY" i =
         Val.num (groupSum df dc dim "Sales" (resolveYear df dc cy) v) ∧
       res.cell "Profit_CY" i =
         Val.num (groupSum df dc dim "Profit" (resolveYear df dc cy) v) ∧
       res.cell "Qty_CY" i =
         Val.num (groupSum df dc dim "Order Quantity"
           (resolveYear df dc cy) v) ∧
       res.cell "Cost_CY" i =
         Val.num (groupSum df dc dim "Total_Cost" (resolveYear df dc cy) v) ∧
       res.cell "Sales_PY" i = Val.num 0 ∧
       res.cell "Profit_PY" i = Val.num 0 ∧
       res.cell "Qty_PY" i = Val.num 0) := by
  obtain ⟨df', hp', hres⟩ := (bydim_ok_iff df0 res dim dc cy).mp hok
  have hdf : df' = df := by
    rw [hp] at hp'
    exact ((Except.ok.injEq _ _).mp hp').symm
  rw [hdf] at hres
  subst hres
  obtain ⟨hscy, hpcy, hqcy, hccy, hspy, hppy, hqpy, -⟩ :=
    getCol_aggDF_reserved df dim dc (resolveYear df dc cy) hdim
  constructor
  · intro hpy hcy
    have hvcy : v ∉ groupKeys df dc dim (resolveYear df dc cy) := fun hm =>
      hcy (mem_of_mem_groupKeys df dc dim _ v hm)
    have hvpy : v ∈ groupKeys df dc dim (resolveYear df dc cy - 1) :=
      mem_groupKeys df dc dim _ v hpy hv
    have hvk : v ∈ aggKeys df dc dim (resolveYear df dc cy) :=
      mem_aggKeys_right df dc dim _ v hvpy hvcy
    have hi : List.indexOf v (aggKeys df dc dim (resolveYear df dc cy)) <
        (aggKeys df dc dim (resolveYear df dc cy)).length :=
      List.indexOf_lt_length.mpr hvk
    refine ⟨List.indexOf v (aggKeys df dc dim (resolveYear df dc cy)),
      ?_, ?_, ?_, ?_, ?_, ?_, ?_, ?_⟩ <;>
      unfold DF.cell
    · rw [getCol_aggDF_dim, List.getD_eq_getElem _ _ hi]
      exact List.getElem_indexOf hi
    · rw [hscy, mergeFillCol_getD _ _ _ _ hi, List.indexOf_get,
        if_neg (by simpa using hvcy)]
    · rw [hpcy, mergeFillCol_getD _ _ _ _ hi, List.indexOf_get,
        if_neg (by simpa using hvcy)]
    · rw [hqcy, mergeFillCol_getD _ _ _ _ hi, List.indexOf_get,
        if_neg (by simpa using hvcy)]
    · rw [hccy, mergeFillCol_getD _ _ _ _ hi, List.indexOf_get,
        if_neg (by simpa using hvcy)]
    · rw [hspy, mergeFillCol_getD _ _ _ _ hi, List.indexOf_get,
        if_pos (by simpa using hvpy)]
    · rw [hppy, mergeFillCol_getD _ _ _ _ hi, List.indexOf_get,
        if_pos (by simpa using hvpy)]
    · rw [hqpy, mergeFillCol_getD _ _ _ _ hi, List.indexOf_get,
        if_pos (by simpa using hvpy)]
  · intro hcy hpy
    have hvpy : v ∉ groupKeys df dc dim (resolveYear df dc cy - 1) := fun hm =>
      hpy (mem_of_mem_groupKeys df dc dim _ v hm)
    have hvcy : v ∈ groupKeys df dc dim (resolveYear df dc cy) :=
      mem_groupKeys df dc dim _ v hcy hv
    have hvk : v ∈ aggKeys df dc dim (resolveYear df dc cy) :=
      mem_aggKeys_left df dc dim _ v hvcy
    have hi : List.indexOf v (aggKeys df dc dim (resolveYear df dc cy)) <
        (aggKeys df dc dim (resolveYear df dc cy)).length :=
      List.indexOf_lt_length.mpr hvk
    refine ⟨List.indexOf v (aggKeys df dc dim (resolveYear df dc cy)),
      ?_, ?_, ?_, ?_, ?_, ?_, ?_, ?_⟩ <;>
      unfold DF.cell
    · rw [getCol_aggDF_dim, List.getD_eq_getElem _ _ hi]
      exact List.getElem_indexOf hi
    · rw [hscy, mergeFillCol_getD _ _ _ _ hi, List.indexOf_get,
        if_pos (by simpa using hvcy)]
    · rw [hpcy, mergeFillCol_getD _ _ _ _ hi, List.indexOf_get,
        if_pos (by simpa using hvcy)]
    · rw [hqcy, mergeFillCol_getD _ _ _ _ hi, List.indexOf_get,
        if_pos (by simpa using hvcy)]
    · rw [hccy, mergeFillCol_getD _ _ _ _ hi, List.indexOf_get,
        if_pos (by simpa using hvcy)]
    · rw [hspy, mergeFillCol_getD _ _ _ _ hi, List.indexOf_get,
        if_neg (by simpa using hvpy)]
    · rw [hppy, mergeFillCol_getD _ _ _ _ hi, List.indexOf_get,
        if_neg (by simpa using hvpy)]
    · rw [hqpy, mergeFillCol_getD _ _ _ _ hi, List.indexOf_get,
        if_neg (by simpa using hvpy)]

/-- Witness for C4: product B of `exDF` sells only in the prior year (2022)
yet appears in the aggregate with zero current-year columns and its true
prior-year sums. -/
theorem bydim_outer_join_completeness_witness :
    (reservedName "Product" = false ∧ Val.str "B" ≠ Val.na ∧
     prepare_sales_columns exDF = .ok exPrepDF ∧
     calculate_measures_by_dimension exDF "Product" "OrderDate" none =
       .ok exResNone ∧
     Val.str "B" ∈ yearDimVals exPrepDF "OrderDate" "Product"
       (resolveYear exPrepDF "OrderDate" none - 1) ∧
     Val.str "B" ∉ yearDimVals exPrepDF "OrderDate" "Product"
       (resolveYear exPrepDF "OrderDate" none)) ∧
    (∃ i : Nat,
       exResNone.cell "Product" i = Val.str "B" ∧
       exResNone.cell "Sales_CY" i = Val.num 0 ∧
       exResNone.cell "Profit_CY" i = Val.num 0 ∧
       exResNone.cell "Qty_CY" i = Val.num 0 ∧
       exResNone.cell "Cost_CY" i = Val.num 0 ∧
       exResNone.cell "Sales_PY" i =
         Val.num (groupSum exPrepDF "OrderDate" "Product" "Sales"
           (resolveYear exPrepDF "OrderDate" none - 1) (Val.str "B")) ∧
       exResNone.cell "Profit_PY" i =
         Val.num (groupSum exPrepDF "OrderDate" "Product" "Profit"
           (resolveYear exPrepDF "OrderDate" none - 1) (Val.str "B")) ∧
       exResNone.cell "Qty_PY" i =
         Val.num (groupSum exPrepDF "OrderDate" "Product" "Order Quantity"
           (resolveYear exPrepDF "OrderDate" none - 1) (Val.str "B"))) := by
  have h1 : prepare_sales_columns exDF = .ok exPrepDF :=
    of_decide_eq_true (by with_unfolding_all rfl)
  have h2 : calculate_measures_by_dimension exDF "Product" "OrderDate" none =
      .ok exResNone :=
    of_decide_eq_true (by with_unfolding_all rfl)
  have h3 : Val.str "B" ∈ yearDimVals exPrepDF "OrderDate" "Product"
      (resolveYear exPrepDF "OrderDate" none - 1) :=
    of_decide_eq_true (by with_unfolding_all rfl)
  have h4 : Val.str "B" ∉ yearDimVals exPrepDF "OrderDate" "Product"
      (resolveYear exPrepDF "OrderDate" none) :=
    of_decide_eq_false (by with_unfolding_all rfl)
  exact ⟨⟨by decide, by decide, h1, h2, h3, h4⟩,
    (bydim_outer_join_completeness exDF exPrepDF exResNone "Product"
      "OrderDate" none (Val.str "B") (by decide) (by decide) h1 h2).1 h3 h4⟩

/-- C5 (amended): every aggregate row carries current-year sums of
Sales/Profit/Quantity/Cost but prior-year sums of Sales/Profit/Quantity only
— there is no prior-year cost column — plus `Sales_Var`, the guarded
`Sales_Var_Pct` and the guarded `Profit_Margin_Pct`; the column list is
exactly these eleven columns. -/
theorem bydim_columns (df0 res : DF) (dim dc : String) (cy : Option Int)
    (hok : calculate_measures_by_dimension df0 dim dc cy = .ok res) :
    res.colNames = [dim, "Sales_CY", "Profit_CY", "Qty_CY", "Cost_CY",
      "Sales_PY", "Profit_PY", "Qty_PY", "Sales_Var", "Sales_Var_Pct",
      "Profit_Margin_Pct"] ∧
    (reservedName dim = false → "Cost_PY" ∉ res.colNames) := by
  obtain ⟨df, hp, hres⟩ := (bydim_ok_iff df0 res dim dc cy).mp hok
  subst hres
  refine ⟨rfl, fun hdim => ?_⟩
  have hne : dim ≠ "Cost_PY" := by
    intro he
    have := reserved_beq_false dim "Cost_PY" hdim (by decide)
    rw [he] at this
    simp at this
  intro hmem
  rcases List.mem_cons.mp hmem with he | hrest
  · exact hne he.symm
  · simp [DF.colNames, aggDF] at hrest

/-- Witness for C5 (amended) at the concrete aggregate of `exDF`. -/
theorem bydim_columns_witness :
    calculate_measures_by_dimension exDF "Product" "OrderDate" none =
        .ok exResNone ∧
      (exResNone.colNames = ["Product", "Sales_CY", "Profit_CY", "Qty_CY",
        "Cost_CY", "Sales_PY", "Profit_PY", "Qty_PY", "Sales_Var",
        "Sales_Var_Pct", "Profit_Margin_Pct"] ∧
       (reservedName "Product" = false → "Cost_PY" ∉ exResNone.colNames)) := by
  have h2 : calculate_measures_by_dimension exDF "Product" "OrderDate" none =
      .ok exResNone :=
    of_decide_eq_true (by with_unfolding_all rfl)
  exact ⟨h2, bydim_columns exDF exResNone "Product" "OrderDate" none h2⟩

/-- Counterexample to C5 as stated: the aggregate of `exDF` carries no
prior-year cost column — its column list ends after `Qty_PY` and the three
computed columns, with no `Cost_PY` anywhere. -/
theorem bydim_no_cost_py_counterexample :
    (calculate_measures_by_dimension exDF "Product" "OrderDate" none).map
        DF.colNames =
      .ok ["Product", "Sales_CY", "Profit_CY", "Qty_CY", "Cost_CY",
        "Sales_PY", "Profit_PY", "Qty_PY", "Sales_Var", "Sales_Var_Pct",
        "Profit_Margin_Pct"] ∧
    (calculate_measures_by_dimension exDF "Product" "OrderDate" none).map
        (fun r => r.colNames.contains "Cost_PY") = .ok false := by
  constructor <;> exact of_decide_eq_true (by with_unfolding_all rfl)

/-! ## Calendar theorems -/

theorem dateRange_nodup (s e : Int) : (dateRange s e).Nodup := by
  unfold dateRange
  refine List.Nodup.map ?_ (List.nodup_range _)
  intro a b hab
  simp only at hab
  omega

theorem mkCalRow_Date (fsm d : Int) : (mkCalRow fsm d).Date = d := rfl

theorem create_date_table_ok (s e fsm : Int) :
    create_date_table s e fsm = .ok ⟨(dateRange s e).map (mkCalRow fsm)⟩ := by
  unfold create_date_table
  rw [if_pos]
  rw [List.map_map]
  have hc : (fun r => CalRow.Date r) ∘ mkCalRow fsm = id := funext fun d => rfl
  rw [hc, List.map_id]
  exact dateRange_nodup s e

/-- C2 (amended): every calendar row satisfies fiscal year = calendar year
when month ≥ fiscal start month and calendar year − 1 otherwise, and fiscal
quarter = ((month − m) mod 12) div 3 + 1 — so with m = 4, month 6 gives
quarter 1, month 3 gives fiscal year = year − 1, but month 1 gives quarter
4 (the formula value ((1−4) mod 12)/3 + 1 = 4, not 3). -/
theorem fiscal_columns_formula (s e fsm : Int) (t : CalTable)
    (h : create_date_table s e fsm = .ok t) :
    ∀ r ∈ t.rows,
      r.Fiscal_Year = (if r.Month ≥ fsm then r.Year else r.Year - 1) ∧
      r.Fiscal_Quarter = (r.Month - fsm) % 12 / 3 + 1 := by
  rw [create_date_table_ok] at h
  have ht : t = ⟨(dateRange s e).map (mkCalRow fsm)⟩ :=
    ((Except.ok.injEq _ _).mp h).symm
  subst ht
  intro r hr
  obtain ⟨d, hd, rfl⟩ := List.mem_map.mp hr
  exact ⟨rfl, rfl⟩

/-- Witness for C2 (amended): the concrete January 2020 calendar row under
fiscal start month 4 — month 1, fiscal year 2019, fiscal quarter 4. -/
theorem fiscal_columns_formula_witness :
    (create_date_table 18262 18262 4 = .ok exCalJan ∧
      exCalJan.rows.map (fun r => (r.Month, r.Fiscal_Year, r.Fiscal_Quarter)) =
        [(1, 2019, 4)]) ∧
    (∀ r ∈ exCalJan.rows,
      r.Fiscal_Year = (if r.Month ≥ 4 then r.Year else r.Year - 1) ∧
      r.Fiscal_Quarter = (r.Month - 4) % 12 / 3 + 1) :=
  ⟨⟨by decide, by decide⟩,
   fiscal_columns_formula 18262 18262 4 exCalJan (by decide)⟩

/-- Counterexample to C2 as stated: the claim's worked example "month 1
gives quarter 3" is false on the code — the January 2020 row built with
fiscal_start_month = 4 carries Fiscal_Quarter = 4 (and ((1−4) mod 12)
div 3 + 1 = 4 ≠ 3). -/
theorem fiscal_quarter_january_counterexample :
    (create_date_table 18262 18262 4).map
        (fun t => t.rows.map (fun r => (r.Month, r.Fiscal_Quarter))) =
      .ok [(1, 4)] ∧
    ((1 : Int) - 4) % 12 / 3 + 1 = 4 ∧ (4 : Int) ≠ 3 := by
  refine ⟨?_, ?_, ?_⟩ <;> decide

/-- C3: over a valid range the calendar has exactly end − start + 1 rows,
dates strictly increasing by one day with no gaps and unique, day-of-week
in 1..7 anchored so that January 1 1973 (a Monday) yields 1, with
consecutive dates advancing the day-of-week cyclically. -/
theorem calendar_range_invariants (s e fsm : Int) (h : s ≤ e) :
    ∃ t, create_date_table s e fsm = .ok t ∧
      t.rows.length = (e - s + 1).toNat ∧
      (∀ (i : Nat) (hi : i < t.rows.length),
        (t.rows.get ⟨i, hi⟩).Date = s + (i : Int)) ∧
      (t.rows.map (fun r => r.Date)).Nodup ∧
      List.Chain' (fun a b => b.Date = a.Date + 1) t.rows ∧
      (∀ r ∈ t.rows, 1 ≤ r.Day_Of_Week ∧ r.Day_Of_Week ≤ 7 ∧
        r.Day_Of_Week = (r.Date - daysFromCivil 1973 1 1) % 7 + 1) ∧
      (∀ r ∈ t.rows, r.Date = daysFromCivil 1973 1 1 → r.Day_Of_Week = 1) := by
  refine ⟨⟨(dateRange s e).map (mkCalRow fsm)⟩, create_date_table_ok s e fsm,
    ?_, ?_, ?_, ?_, ?_, ?_⟩
  · simp [dateRange]
  · intro i hi
    simp only [List.get_eq_getElem, List.getElem_map]
    simp [dateRange, mkCalRow_Date]
  · rw [List.map_map]
    have hc : (fun r => CalRow.Date r) ∘ mkCalRow fsm = id := funext fun d => rfl
    rw [hc, List.map_id]
    exact dateRange_nodup s e
  · rw [List.chain'_iff_get]
    intro i hi
    simp only [List.get_eq_getElem, List.getElem_map]
    simp only [List.length_map] at hi
    unfold dateRange at hi ⊢
    simp only [List.getElem_map, List.getElem_range, mkCalRow_Date] at hi ⊢
    omega
  · intro r hr
    obtain ⟨d, hd, rfl⟩ := List.mem_map.mp hr
    have hbase : daysFromCivil 1973 1 1 = 1096 := by decide
    refine ⟨by show 1 ≤ (d + 3) % 7 + 1; omega,
            by show (d + 3) % 7 + 1 ≤ 7; omega, ?_⟩
    show (d + 3) % 7 + 1 = (d - daysFromCivil 1973 1 1) % 7 + 1
    rw [hbase]
    omega
  · intro r hr hdate
    obtain ⟨d, hd, rfl⟩ := List.mem_map.mp hr
    rw [mkCalRow_Date] at hdate
    have hd1096 : d = 1096 := by rw [hdate]; decide
    subst hd1096
    show ((1096 : Int) + 3) % 7 + 1 = 1
    decide

/-- Witness for C3 over the concrete range [1095, 1097], which contains
January 1 1973 (day 1096). -/
theorem calendar_range_invariants_witness :
    (1095 : Int) ≤ 1097 ∧
    (∃ t, create_date_table 1095 1097 4 = .ok t ∧
      t.rows.length = ((1097 : Int) - 1095 + 1).toNat ∧
      (∀ (i : Nat) (hi : i < t.rows.length),
        (t.rows.get ⟨i, hi⟩).Date = 1095 + (i : Int)) ∧
      (t.rows.map (fun r => r.Date)).Nodup ∧
      List.Chain' (fun a b => b.Date = a.Date + 1) t.rows ∧
      (∀ r ∈ t.rows, 1 ≤ r.Day_Of_Week ∧ r.Day_Of_Week ≤ 7 ∧
        r.Day_Of_Week = (r.Date - daysFromCivil 1973 1 1) % 7 + 1) ∧
      (∀ r ∈ t.rows, r.Date = daysFromCivil 1973 1 1 →
        r.Day_Of_Week = 1)) :=
  ⟨by decide, calendar_range_invariants 1095 1097 4 (by decide)⟩

/-- C6 (amended): `create_date_table` performs no range or fiscal-month
validation and never fails — for an inverted range it silently returns an
empty calendar (`pd.date_range` yields an empty index and the assertions
pass vacuously), and any fiscal_start_month, also outside 1..12, is
accepted. -/
theorem create_date_table_no_validation (s e fsm : Int) :
    ∃ t, create_date_table s e fsm = .ok t ∧ (e < s → t.rows = []) := by
  refine ⟨_, create_date_table_ok s e fsm, fun he => ?_⟩
  have h0 : (e - s + 1).toNat = 0 := by omega
  simp [dateRange, h0]

/-- Witness for C6 (amended) at the inverted concrete range
[2020-01-02, 2020-01-01]. -/
theorem create_date_table_no_validation_witness :
    (daysFromCivil 2020 1 1 < daysFromCivil 2020 1 2) ∧
    (∃ t, create_date_table (daysFromCivil 2020 1 2) (daysFromCivil 2020 1 1)
        4 = .ok t ∧ t.rows = []) := by
  refine ⟨by decide, ?_⟩
  obtain ⟨t, h1, h2⟩ := create_date_table_no_validation
    (daysFromCivil 2020 1 2) (daysFromCivil 2020 1 1) 4
  exact ⟨t, h1, h2 (by decide)⟩

/-- Counterexample to C6 as stated: with end before start the builder raises
no `InvalidRangeError` — it silently returns a (zero-row) table — and a
fiscal start month outside 1..12 (13 or 0) raises no `InvalidConfigError`:
all three calls succeed, and no such error classes exist in the source. -/
theorem create_date_table_missing_validation_counterexample :
    create_date_table (daysFromCivil 2020 1 2) (daysFromCivil 2020 1 1) 4 =
        .ok ⟨[]⟩ ∧
      (create_date_table 18262 18262 13).toOption.isSome = true ∧
      (create_date_table 18262 18262 0).toOption.isSome = true := by
  refine ⟨?_, ?_, ?_⟩ <;> decide

/-! ## Cleaner theorems -/

theorem firstDedupAux_sublist {α : Type _} [DecidableEq α] (seen l : List α) :
    (firstDedupAux seen l).Sublist l := by
  induction l generalizing seen with
  | nil => simp [firstDedupAux]
  | cons x xs ih =>
      unfold firstDedupAux
      by_cases hx : x ∈ seen
      · rw [if_pos hx]
        exact (ih seen).cons x
      · rw [if_neg hx]
        exact (ih (x :: seen)).cons₂ x

theorem mem_firstDedupAux {α : Type _} [DecidableEq α] (seen l : List α)
    (x : α) : x ∈ firstDedupAux seen l ↔ (x ∈ l ∧ x ∉ seen) := by
  induction l generalizing seen with
  | nil => simp [firstDedupAux]
  | cons y ys ih =>
      unfold firstDedupAux
      by_cases hy : y ∈ seen
      · rw [if_pos hy, ih]
        constructor
        · rintro ⟨hm, hs⟩
          exact ⟨List.mem_cons_of_mem _ hm, hs⟩
        · rintro ⟨hm, hs⟩
          rcases List.mem_cons.mp hm with rfl | hm'
          · exact absurd hy hs
          · exact ⟨hm', hs⟩
      · rw [if_neg hy]
        constructor
        · intro hm
          rcases List.mem_cons.mp hm with rfl | hm'
          · exact ⟨List.mem_cons_self _ _, hy⟩
          · have hx := (ih (y :: seen)).mp hm'
            exact ⟨List.mem_cons_of_mem _ hx.1,
              fun hs => hx.2 (List.mem_cons_of_mem _ hs)⟩
        · rintro ⟨hm, hs⟩
          rcases List.mem_cons.mp hm with rfl | hm'
          · exact List.mem_cons_self _ _
          · by_cases hxy : x = y
            · subst hxy
              exact List.mem_cons_self _ _
            · refine List.mem_cons_of_mem _ ((ih (y :: seen)).mpr ⟨hm', ?_⟩)
              intro hmem
              rcases List.mem_cons.mp hmem with he | hseen
              · exact hxy he
              · exact hs hseen

theorem firstDedupAux_nodup {α : Type _} [DecidableEq α] (seen l : List α) :
    (firstDedupAux seen l).Nodup := by
  induction l generalizing seen with
  | nil => simp [firstDedupAux]
  | cons y ys ih =>
      unfold firstDedupAux
      by_cases hy : y ∈ seen
      · rw [if_pos hy]
        exact ih seen
      · rw [if_neg hy]
        refine List.nodup_cons.mpr ⟨?_, ih (y :: seen)⟩
        intro hmem
        exact ((mem_firstDedupAux _ _ _).mp hmem).2 (List.mem_cons_self _ _)

theorem firstDedup_nodup {α : Type _} [DecidableEq α] (l : List α) :
    (firstDedup l).Nodup := firstDedupAux_nodup [] l

theorem firstDedup_sublist {α : Type _} [DecidableEq α] (l : List α) :
    (firstDedup l).Sublist l := firstDedupAux_sublist [] l

theorem mem_firstDedup {α : Type _} [DecidableEq α] (l : List α) (x : α) :
    x ∈ firstDedup l ↔ x ∈ l := by
  rw [firstDedup, mem_firstDedupAux]
  simp

theorem length_insertSorted (x : ℚ) (l : List ℚ) :
    (insertSorted x l).length = l.length + 1 := by
  induction l with
  | nil => rfl
  | cons y ys ih =>
      unfold insertSorted
      by_cases h : x ≤ y
      · rw [if_pos h]
        rfl
      · rw [if_neg h]
        simp [ih]

theorem length_sortQ (l : List ℚ) : (sortQ l).length = l.length := by
  induction l with
  | nil => rfl
  | cons y ys ih =>
      show (insertSorted y (sortQ ys)).length = ys.length + 1
      rw [length_insertSorted, ih]

theorem medianQ_isSome (l : List ℚ) (h : l ≠ []) :
    ∃ q, medianQ l = some q := by
  unfold medianQ
  have hl : (sortQ l).length ≠ 0 := by
    rw [length_sortQ]
    simpa using h
  rw [if_neg hl]
  by_cases h2 : (sortQ l).length % 2 = 1
  · rw [if_pos h2]
    exact ⟨_, rfl⟩
  · rw [if_neg h2]
    exact ⟨_, rfl⟩

theorem range_map_getD (n : Nat) (g : Nat → Val) (j : Nat) (hj : j < n) :
    ((List.range n).map g).getD j Val.na = g j := by
  rw [List.getD_eq_getElem _ _ (by simpa using hj), List.getElem_map,
    List.getElem_range]

theorem absCell_ne_na (v : Val) (h : v ≠ Val.na) : absCell v ≠ Val.na := by
  cases v <;> simp [absCell] at h ⊢

theorem absCell_num (w : Val) (q : ℚ) (h : absCell w = Val.num q) : 0 ≤ q := by
  cases w <;> simp [absCell] at h
  rw [← h]
  exact abs_nonneg _

theorem cleanCell_num_ne_na (name : String) (m : ℚ) (v : Val)
    (hd : isDateName name = false) :
    cleanCell name Dtype.number (some m) v ≠ Val.na := by
  have hv1 : fillCell Dtype.number (some m) v ≠ Val.na := by
    cases v <;> simp [fillCell]
  by_cases hmag : name ∈ magnitudeCols
  · simp only [cleanCell, hd, Bool.false_eq_true, if_false, if_pos hmag]
    exact absCell_ne_na _ hv1
  · simp only [cleanCell, hd, Bool.false_eq_true, if_false, if_neg hmag]
    exact hv1

theorem cleanCell_text_ne_na (name : String) (m : Option ℚ) (v : Val)
    (hd : isDateName name = false) :
    cleanCell name Dtype.text m v ≠ Val.na := by
  have hv1 : fillCell Dtype.text m v ≠ Val.na := by
    cases v <;> simp [fillCell]
  by_cases hmag : name ∈ magnitudeCols
  · simp only [cleanCell, hd, Bool.false_eq_true, if_false, if_pos hmag]
    exact absCell_ne_na _ hv1
  · simp only [cleanCell, hd, Bool.false_eq_true, if_false, if_neg hmag]
    exact hv1

theorem cleanCell_nonneg (name : String) (dt : Dtype) (m : Option ℚ) (v : Val)
    (hm : name ∈ magnitudeCols) (q : ℚ)
    (h : cleanCell name dt m v = Val.num q) : 0 ≤ q := by
  unfold cleanCell at h
  rw [if_pos hm] at h
  exact absCell_num _ _ h

/-- C9 (amended): the Cleaner removes the rows that duplicate an earlier row
before imputing (the deduplicated stage is duplicate-free, keeps first
occurrences, is a sublist of the input with the same member rows, and gives
the output its row count — imputation and sign-normalization may make
surviving rows equal again); in the output, numeric non-date columns with at
least one present value after deduplication and all text non-date columns
have no missing cells, and the magnitude columns Order Quantity /
Unit Selling Price / Unit Cost contain only non-negative numeric values. -/
theorem clean_data_invariants (df : CDF) :
    (dedupRows df).Nodup ∧
    (dedupRows df).Sublist df.rows ∧
    (∀ r, r ∈ dedupRows df ↔ r ∈ df.rows) ∧
    (clean_data df).rows.length = (dedupRows df).length ∧
    (∀ r ∈ (clean_data df).rows, ∀ j : Nat, ∀ name : String,
      df.schema.getD j ("", Dtype.text) = (name, Dtype.number) →
      isDateName name = false →
      (∃ r' ∈ dedupRows df, ∃ q : ℚ, r'.getD j Val.na = Val.num q) →
      j < df.schema.length →
      r.getD j Val.na ≠ Val.na) ∧
    (∀ r ∈ (clean_data df).rows, ∀ j : Nat, ∀ name : String,
      df.schema.getD j ("", Dtype.text) = (name, Dtype.text) →
      isDateName name = false →
      j < df.schema.length →
      r.getD j Val.na ≠ Val.na) ∧
    (∀ r ∈ (clean_data df).rows, ∀ j : Nat,
      (df.schema.getD j ("", Dtype.text)).1 ∈ magnitudeCols →
      ∀ q : ℚ, r.getD j Val.na = Val.num q → 0 ≤ q) := by
  refine ⟨firstDedup_nodup _, firstDedup_sublist _,
    fun r => mem_firstDedup _ r, by simp [clean_data], ?_, ?_, ?_⟩
  · intro r hr j name hsch hdate hnum hj
    simp only [clean_data] at hr
    obtain ⟨r', hr', rfl⟩ := List.mem_map.mp hr
    rw [range_map_getD _ _ j hj]
    have hmed : ∃ m, medianQ (numsOf (colOf (dedupRows df) j)) = some m := by
      apply medianQ_isSome
      obtain ⟨r2, hr2, q, hq⟩ := hnum
      intro hnil
      have hqmem : q ∈ numsOf (colOf (dedupRows df) j) := by
        refine List.mem_filterMap.mpr ⟨Val.num q, ?_, rfl⟩
        exact List.mem_map.mpr ⟨r2, hr2, hq⟩
      rw [hnil] at hqmem
      cases hqmem
    obtain ⟨m, hmv⟩ := hmed
    rw [hsch, hmv]
    exact cleanCell_num_ne_na name m _ hdate
  · intro r hr j name hsch hdate hj
    simp only [clean_data] at hr
    obtain ⟨r', hr', rfl⟩ := List.mem_map.mp hr
    rw [range_map_getD _ _ j hj, hsch]
    exact cleanCell_text_ne_na name _ _ hdate
  · intro r hr j hmag q hq
    simp only [clean_data] at hr
    obtain ⟨r', hr', rfl⟩ := List.mem_map.mp hr
    by_cases hj : j < df.schema.length
    · rw [range_map_getD _ _ j hj] at hq
      exact cleanCell_nonneg _ _ _ _ hmag q hq
    · rw [List.getD_eq_default] at hq
      · exact absurd hq (by simp)
      · simpa using Nat.le_of_not_lt hj

/-- Witness for C9 (amended): the concrete dirty table `exDirty2` — a
negative quantity, a missing quantity and a missing customer — cleans to a
duplicate-free-before-imputation table whose Order Quantity column is
imputed and non-negative. -/
theorem clean_data_invariants_witness :
    ((dedupRows exDirty2).Nodup ∧
     (clean_data exDirty2).rows.length = (dedupRows exDirty2).length) ∧
    (exDirty2.schema.getD 0 ("", Dtype.text) =
        ("Order Quantity", Dtype.number) ∧
     isDateName "Order Quantity" = false ∧
     0 < exDirty2.schema.length ∧
     (∀ r ∈ (clean_data exDirty2).rows, r.getD 0 Val.na ≠ Val.na)) ∧
    (∀ r ∈ (clean_data exDirty2).rows, ∀ q : ℚ,
      r.getD 0 Val.na = Val.num q → 0 ≤ q) := by
  have hnum : ∃ r' ∈ dedupRows exDirty2, ∃ q : ℚ,
      r'.getD 0 Val.na = Val.num q := by
    refine ⟨[Val.num (-2), Val.na], ?_, -2, ?_⟩
    · exact of_decide_eq_true (by with_unfolding_all rfl)
    · exact of_decide_eq_true (by with_unfolding_all rfl)
  refine ⟨⟨(clean_data_invariants exDirty2).1,
      (clean_data_invariants exDirty2).2.2.2.1⟩,
    ⟨by decide, by decide, by decide, ?_⟩, ?_⟩
  · intro r hr
    exact (clean_data_invariants exDirty2).2.2.2.2.1 r hr 0 "Order Quantity"
      (by decide) (by decide) hnum (by decide)
  · intro r hr q hq
    exact (clean_data_invariants exDirty2).2.2.2.2.2.2 r hr 0 (by decide) q hq

/-- Counterexample to C9 as stated: on `exDirty` — rows `[1, NaN]` and
`[NaN, NaN]`, both numeric columns — median imputation maps the two distinct
surviving rows to the same row, so the output has exact-duplicate rows; and
column `X`, all-missing, has median NaN, so its cells stay missing in the
output. -/
theorem clean_data_counterexample :
    ¬ (clean_data exDirty).rows.Nodup ∧
      Val.na ∈ colOf (clean_data exDirty).rows 1 := by
  constructor
  · exact of_decide_eq_true (by with_unfolding_all rfl)
  · exact of_decide_eq_true (by with_unfolding_all rfl)

end SalesCore
